import Mathlib

/-!
Shallow embedding of `parlai/crowdsourcing/tasks/multi_model_chat/multiparty_worlds.py`:
the `MultipartyChatWorld` turn/termination state machine (`parley`,
`_run_initial_turn`, `__add_problem_data_to_utterance`, `has_final_rating`)
and the `ContextGenerator` scenario provider (`get_settings`, `get_context`).

Python dict fields that may be absent are modelled as `Option`; Python
exceptions (KeyError, IndexError, TypeError, AssertionError) are modelled by
an `Err` value returned alongside the (possibly partially mutated) state,
mirroring in-place mutation up to the raise point.  External side effects
(the on-disk chat-data write and the punitive qualification grant) are
modelled as per-invocation counters.
-/

namespace Multiparty

/-- Ratings are abstracted to their score payload. -/
abbrev Rating := Nat

/-- Problem-data annotations are abstracted to an opaque payload value. -/
abbrev ProblemData := Nat

/-- One persona entry of the context: a dict with keys name and persona. -/
structure Persona where
  name : String
  persona : String
deriving DecidableEq

/-- A location entry of the context: a dict with keys name and description. -/
structure Location where
  name : String
  description : String
deriving DecidableEq

/-- The context_info dict handed to the world: context_dataset, personas, and
an optional location key (absence of the Python key is `none`). -/
structure ContextInfo where
  context_dataset : String
  personas : List Persona
  location : Option Location
deriving DecidableEq

/-- The task_data sub-dict of an action; both keys may be absent or None,
which collapse to `none` (the code only tests them via get / is-None). -/
structure TaskData where
  final_rating : Option Rating
  problem_data_for_prior_message : Option ProblemData
deriving DecidableEq

/-- An action returned by a participant's act: text, an optional id,
the human_turn flag read via act.get with default False, and optional
task_data. -/
structure Act where
  text : List Char
  id : Option String
  human_turn : Bool
  task_data : Option TaskData
deriving DecidableEq

/-- Observations delivered to a participant proxy: the persona-setting
message to the bot (location key present only when in the context), the
persona task_data message to the human (location accessed unconditionally),
or a forwarded action (with its needs_rating flag). -/
inductive Obs where
  | personaToBot (personas : List Persona) (location : Option Location)
  | personaToHuman (personas : List Persona) (location : Location)
  | actObs (a : Act) (needs_rating : Bool)
deriving DecidableEq

/-- A participant proxy: its display identifier, its own turn counter, and
the log of observations delivered to it. -/
structure Proxy where
  agent_id : Option String
  turn_count : Nat
  observed : List Obs
deriving DecidableEq

/-- Modelled from the spec: the ParticipantProxy contract
observe(message, increment_turn: bool = true).  The proxy implementations
(the Mephisto human agent and the TurkLikeAgent bot wrapper) are not part of
src/; per the contract, a delivered observation is appended to the proxy's
log and the proxy's own turn counter is incremented unless increment_turn
is false.  Call sites that pass no flag use the contract default true. -/
def Proxy.observe (p : Proxy) (o : Obs) (increment_turn : Bool) : Proxy :=
  { p with
    observed := p.observed ++ [o]
    turn_count := if increment_turn then p.turn_count + 1 else p.turn_count }

/-- One entry of self.dialog: the utterance_data dict built in parley, plus
the two backfillable keys problem_data and final_rating (absent = `none`). -/
structure Utterance where
  agent_idx : Nat
  text : List Char
  id : String
  problem_data : Option ProblemData
  final_rating : Option Rating
deriving DecidableEq

/-- Python exceptions surfaced by the modelled code paths. -/
inductive Err where
  | typeError
  | keyError
  | indexError
  | assertionError (msg : String)
deriving DecidableEq

/-- The mutable state of a MultipartyChatWorld: the context, the
include_persona option, task_turn_idx, chat_done, the dialog list, and the
two participant proxies. -/
structure World where
  context_info : ContextInfo
  include_persona : Bool
  task_turn_idx : Nat
  chat_done : Bool
  dialog : List Utterance
  agent : Proxy
  bot : Proxy
deriving DecidableEq

/-- A fresh world as built by make_world: turn index 0, not done, empty
dialog. -/
def initWorld (ctx : ContextInfo) (inc : Bool) (a b : Proxy) : World :=
  { context_info := ctx
    include_persona := inc
    task_turn_idx := 0
    chat_done := false
    dialog := []
    agent := a
    bot := b }

/-- The delimiter used by the text-stripping idiom in parley. -/
def brDelim : List Char := "<br>".data

/-- Decision of whether the delimiter occurs anywhere in the text. -/
def hasDelim (delim : List Char) : List Char → Bool
  | [] => delim.isEmpty
  | c :: rest => delim.isPrefixOf (c :: rest) || hasDelim delim rest

/-- Embedding of text.split(delim)[0]: the prefix of the text strictly
before the first occurrence of the delimiter, or the whole text when the
delimiter does not occur. -/
def splitHead (delim : List Char) : List Char → List Char
  | [] => []
  | c :: rest =>
    if delim.isPrefixOf (c :: rest) then []
    else c :: splitHead delim rest

/-- Embedding of act.text.split with the <br> delimiter, first piece, as used
for every appended utterance's text. -/
def splitBr (s : List Char) : List Char := splitHead brDelim s

/-- Embedding of has_final_rating:
act.get with key task_data, default empty dict, then .get final_rating,
compared against None. -/
def has_final_rating (act : Act) : Bool :=
  match act.task_data with
  | none => false
  | some td => td.final_rating.isSome

/-- Embedding of __add_problem_data_to_utterance at turn_idx = -1: assert the
last dialog entry is a bot utterance, assert it has no problem_data yet, then
set problem_data.  Indexing an empty dialog raises IndexError; a failed
assert raises AssertionError before any write. -/
def add_problem_data_to_utterance (dialog : List Utterance) (p : ProblemData) :
    Except Err (List Utterance) :=
  match dialog.getLast? with
  | none => Except.error Err.indexError
  | some u =>
    if u.agent_idx = 1 then
      if u.problem_data = none then
        Except.ok (dialog.dropLast ++ [{ u with problem_data := some p }])
      else Except.error (Err.assertionError "Do not overwrite existing problem data!")
    else Except.error (Err.assertionError "Problem data must be attached to a bot utterance.")

/-- The outcome of one parley invocation: the world after the invocation
(including any mutations made before an exception), the raised exception if
any, and counters for the two terminal side effects of this invocation: the
persistence write of the final chat data and the punitive qualification
grant. -/
structure ParleyResult where
  world : World
  err : Option Err
  writes : Nat
  grants : Nat
deriving DecidableEq

/-- Embedding of the acceptability-violations test at the end of parley:
the violations value is not None and not the empty string.  The value itself
comes from get_final_chat_data, which is inherited code outside src/, so it
is a parameter of parley. -/
def nonEmptyViolations : Option String → Bool
  | none => false
  | some s => if s = "" then false else true

/-- Embedding of _run_initial_turn: clear both agent ids; when
include_persona, build the persona message for the bot (location key present
only when the context has one) and observe it with increment_turn False,
then build the human's task_data message whose location field reads the
context's location key unconditionally (KeyError when absent) and observe it
under the contract-default increment_turn.  personas[1] is indexed by the
persona-format assert, so fewer than two personas raises IndexError. -/
def run_initial_turn (w : World) : World × Option Err :=
  let w1 : World :=
    { w with
      bot := { w.bot with agent_id := none }
      agent := { w.agent with agent_id := none } }
  if w1.include_persona then
    if w1.context_info.personas.length < 2 then
      (w1, some Err.indexError)
    else
      let msg := Obs.personaToBot w1.context_info.personas w1.context_info.location
      let w2 : World := { w1 with bot := w1.bot.observe msg false }
      match w2.context_info.location with
      | none => (w2, some Err.keyError)
      | some loc =>
        let w3 : World :=
          { w2 with agent := w2.agent.observe (Obs.personaToHuman w2.context_info.personas loc) true }
        (w3, none)
  else (w1, none)

/-- Embedding of the block guarded by if self.chat_done at the end of
parley: act here is the last bound value of the local variable act, which is
None when the invocation entered with chat_done already true
(act['task_data'] on None raises TypeError).  On success: write
final_rating onto the last dialog entry, perform the persistence write, and
grant the punitive qualification when the violations value is non-empty. -/
def finishDone (w : World) (act : Option Act) (violations : Option String) : ParleyResult :=
  match act with
  | none => ⟨w, some Err.typeError, 0, 0⟩
  | some a =>
    match a.task_data with
    | none => ⟨w, some Err.keyError, 0, 0⟩
    | some td =>
      match w.dialog.getLast? with
      | none => ⟨w, some Err.indexError, 0, 0⟩
      | some u =>
        let w1 : World :=
          { w with dialog := w.dialog.dropLast ++ [{ u with final_rating := td.final_rating }] }
        ⟨w1, none, 1, if nonEmptyViolations violations then 1 else 0⟩

/-- The common tail of the two exchange branches of parley: increment
task_turn_idx, then run the chat_done block when the conversation was just
marked done. -/
def finishTurn (w : World) (act : Act) (violations : Option String) : ParleyResult :=
  let w1 : World := { w with task_turn_idx := w.task_turn_idx + 1 }
  if w1.chat_done then finishDone w1 (some act) violations
  else ⟨w1, none, 0, 0⟩

/-- Embedding of MultipartyChatWorld.parley.  The three blocking act calls
are supplied as parameters: botAct is bot.act(), humanAct is the human's
dialogue action (human-turn branch), ratingAct is the human's rating action
(bot-turn branch).  violations is the acceptability-violations entry of the
final chat data (computed by inherited code outside src/). -/
def parley (w : World) (botAct humanAct ratingAct : Act) (violations : Option String) :
    ParleyResult :=
  if w.task_turn_idx = 0 then
    match run_initial_turn w with
    | (w1, some e) => ⟨w1, some e, 0, 0⟩
    | (w1, none) => ⟨{ w1 with task_turn_idx := w1.task_turn_idx + 1 }, none, 0, 0⟩
  else if w.chat_done then
    finishDone w none violations
  else if botAct.human_turn then
    let w1 : World := { w with chat_done := has_final_rating humanAct }
    match w1.context_info.personas.head? with
    | none => ⟨w1, some Err.indexError, 0, 0⟩
    | some p0 =>
      let act1 : Act := { humanAct with id := some p0.name }
      let utt : Utterance :=
        { agent_idx := 0
          text := splitBr act1.text
          id := act1.id.getD "NULL_ID"
          problem_data := none
          final_rating := none }
      let w2 : World := { w1 with dialog := w1.dialog ++ [utt] }
      let w3 : World := { w2 with bot := w2.bot.observe (Obs.actObs act1 false) true }
      finishTurn w3 act1 violations
  else
    let utt : Utterance :=
      { agent_idx := 1
        text := splitBr botAct.text
        id := botAct.id.getD "NULL_ID"
        problem_data := none
        final_rating := none }
    let w1 : World := { w with dialog := w.dialog ++ [utt] }
    let w2 : World := { w1 with agent := w1.agent.observe (Obs.actObs botAct true) true }
    let act2 : Act := { ratingAct with text := "THIS IS A RATING ACTION".data }
    match act2.task_data with
    | none => ⟨w2, some Err.keyError, 0, 0⟩
    | some td =>
      match td.problem_data_for_prior_message with
      | some p =>
        match add_problem_data_to_utterance w2.dialog p with
        | Except.error e => ⟨w2, some e, 0, 0⟩
        | Except.ok d =>
          let w3 : World := { w2 with dialog := d }
          let w4 : World := { w3 with chat_done := has_final_rating act2 }
          finishTurn w4 act2 violations
      | none =>
        let w4 : World := { w2 with chat_done := has_final_rating act2 }
        finishTurn w4 act2 violations

/-- One entry of the get_settings catalog: three personas plus a location. -/
structure Setting where
  personas : List Persona
  location : Location
deriving DecidableEq

/-- Embedding of get_settings: the fixed two-entry catalog of conversation
settings, with the Python adjacent-literal concatenations flattened. -/
def get_settings : List Setting :=
  [ { personas :=
        [ { name := "grass snake"
            persona := "I'm a grass snake. I slither around the castle and fields. I eat the rodents that eat the grain." }
        , { name := "tribesman"
            persona := "I am a tribesman in my group. I am known as a leader in my community and love to help my people.  I'm very level headed and don't get angry easily. Many of my peers come to me to solve disagreements." }
        , { name := "thief"
            persona := "I live alone in a tent in the woods. I steal food from the townspeople and coal from the blacksmith. The village police can not find me to put me in jail." } ]
      location :=
        { name := "Bamboo hut"
          description := "Built of bamboo trunks and a bamboo leaf roof, this small hut has one window on each side and a short door, where those who enter must stoop down so they don't hit their heads. A dirt floor is covered with palm fronds gathered from the jungle; four small rocks are placed around the center of the room, forming a place for the occupants to sit. A small fire burns just outside of the hut, and a wooden spit is suspended over the fire. One of the support poles of the hut has a woven grass bag hanging from it. The bag contains a half-dozen coconuts, clearly gathered for consuming at a later time. A colorful lizard is sleeping in the sun in one of the windows." } }
  , { personas :=
        [ { name := "clergy"
            persona := "I oversee the castle's chapel.  I collect alms for the poor. I am the spiritual leader of the subjects of the kingdom." }
        , { name := "Nuns"
            persona := "I am a nun and I live in a monastery with others nuns and fathers who server the king. I pray to the lord everyday that Queen remains in good health. I was made a sister at a young age and didn't have a choice. I will never know what being with a man will feel like." }
        , { name := "priest"
            persona := "I am here to help the needy. I am well respected in the town. I can not accept lying." } ]
      location :=
        { name := "Church Entryway"
          description := "The church has marble floors and a huge frost window. There are benches made from wood and a big organ can be seen at the front stage. There is gold trim all around the church." } } ]

/-- Embedding of the ContextGenerator instance state: __init__ stores
self.rng, a random.Random built from the seed when one is supplied.  Nothing
else of the opt or datatype arguments is retained. -/
structure ContextGenerator where
  seed : Option Nat
deriving DecidableEq

/-- Model of the module-level random.choice as called in get_context: the
chosen index is a function of the interpreter-global RNG state g alone; the
instance state plays no part.  Successive module-level draws consume
successive global states. -/
def randomChoiceIdx (g : Nat) (n : Nat) (h : 0 < n) : Fin n :=
  ⟨g % n, Nat.mod_lt g h⟩

/-- Embedding of ContextGenerator.get_context: setting = random.choice of
get_settings via the module-level RNG (not self.rng), then the result dict
with the fixed dataset tag, the setting's personas and its location. -/
def ContextGenerator.get_context (cg : ContextGenerator) (g : Nat) : ContextInfo :=
  let setting := get_settings.get (randomChoiceIdx g get_settings.length (by decide))
  { context_dataset := "multi-modelchat"
    personas := setting.personas
    location := some setting.location }

/-! Concrete sample data used by witnesses and counterexamples. -/

/-- A sample conversation context with three personas and a location. -/
def sampleCtx : ContextInfo :=
  { context_dataset := "multi-modelchat"
    personas :=
      [ { name := "alice", persona := "a farmer" }
      , { name := "bot one", persona := "a knight" }
      , { name := "carol", persona := "a baker" } ]
    location := some { name := "hut", description := "a small hut" } }

/-- A fresh sample proxy. -/
def proxy0 : Proxy := { agent_id := some "agent0", turn_count := 0, observed := [] }

/-- A bot action that keeps the turn (human_turn defaults to false). -/
def botTurnAct : Act :=
  { text := "Hi there".data, id := some "bot one", human_turn := false, task_data := none }

/-- A human dialogue action with no rating payload. -/
def humanTextAct : Act :=
  { text := "hello everyone".data, id := none, human_turn := false, task_data := none }

/-- A rating action carrying final_rating score 4 and no problem data. -/
def ratingDoneAct : Act :=
  { text := "ignored".data
    id := none
    human_turn := false
    task_data := some { final_rating := some 4, problem_data_for_prior_message := none } }

/-- The sample world before the first invocation. -/
def wStart : World := initWorld sampleCtx true proxy0 proxy0

/-- The sample world after the initial turn. -/
def wAfterInitial : World :=
  (parley wStart botTurnAct humanTextAct ratingDoneAct none).world

/-- The sample world after a bot exchange whose rating action carried a final
rating: the conversation is done. -/
def wDone : World :=
  (parley wAfterInitial botTurnAct humanTextAct ratingDoneAct none).world

/-! Helper lemmas about the markup-stripping function. -/

/-- Splitting keeps a delimiter-free text unchanged. -/
theorem splitHead_of_not_hasDelim (d s : List Char) (h : hasDelim d s = false) :
    splitHead d s = s := by
  induction s with
  | nil => rfl
  | cons c rest ih =>
    rw [hasDelim, Bool.or_eq_false_iff] at h
    rw [splitHead, if_neg (by simp [h.1]), ih h.2]

/-- A successful Boolean prefix test yields an append decomposition. -/
theorem isPrefixOf_exists_append {d s : List Char} (h : d.isPrefixOf s = true) :
    ∃ t, s = d ++ t := by
  rw [List.isPrefixOf_iff_prefix] at h
  obtain ⟨t, ht⟩ := h
  exact ⟨t, ht.symm⟩

/-- A Boolean prefix test extends along a longer list. -/
theorem isPrefixOf_append_right {d x : List Char} (y : List Char)
    (h : d.isPrefixOf x = true) : d.isPrefixOf (x ++ y) = true := by
  rw [List.isPrefixOf_iff_prefix] at h ⊢
  exact h.trans (List.prefix_append x y)

/-- When the delimiter occurs, the split head is the prefix strictly before
the first occurrence: the remainder starts with the delimiter and the head
itself is delimiter-free. -/
theorem splitHead_first_occurrence (d : List Char) (hd : d ≠ []) (s : List Char)
    (h : hasDelim d s = true) :
    ∃ rest, s = splitHead d s ++ d ++ rest ∧ hasDelim d (splitHead d s) = false := by
  induction s with
  | nil =>
    rw [hasDelim, List.isEmpty_iff] at h
    exact absurd h hd
  | cons c rest ih =>
    rw [hasDelim, Bool.or_eq_true] at h
    by_cases hp : d.isPrefixOf (c :: rest) = true
    · obtain ⟨t, ht⟩ := isPrefixOf_exists_append hp
      refine ⟨t, ?_, ?_⟩
      · rw [splitHead, if_pos hp, List.nil_append, ht]
      · rw [splitHead, if_pos hp, hasDelim]
        cases d with
        | nil => exact absurd rfl hd
        | cons a l => rfl
    · have hrest : hasDelim d rest = true := by
        rcases h with h | h
        · exact absurd h hp
        · exact h
      obtain ⟨t, ht, hfree⟩ := ih hrest
      refine ⟨t, ?_, ?_⟩
      · rw [splitHead, if_neg hp, List.cons_append, List.cons_append]
        exact congrArg (c :: ·) ht
      · rw [splitHead, if_neg hp, hasDelim, Bool.or_eq_false_iff]
        refine ⟨?_, hfree⟩
        by_contra hcon
        rw [Bool.not_eq_false] at hcon
        have hx := isPrefixOf_append_right (d ++ t) hcon
        rw [List.cons_append] at hx
        refine hp ?_
        rw [ht, List.append_assoc]
        exact hx

/-- Claim C8: the markup stripping applied when appending an utterance keeps
only the prefix before the first occurrence of the delimiter <br>; a text
containing no delimiter is returned unchanged, and "hello<br>extra" yields
"hello". -/
theorem markup_stripping_spec (s : List Char) :
    (hasDelim brDelim s = false → splitBr s = s)
    ∧ (hasDelim brDelim s = true →
        ∃ rest, s = splitBr s ++ brDelim ++ rest ∧ hasDelim brDelim (splitBr s) = false)
    ∧ splitBr "hello<br>extra".data = "hello".data := by
  refine ⟨fun h => splitHead_of_not_hasDelim brDelim s h,
          fun h => splitHead_first_occurrence brDelim (by decide) s h, ?_⟩
  decide

/-- Witness for C8 at concrete inputs: a delimiter-free text survives
unchanged, and the delimiter case strips at the first occurrence. -/
theorem markup_stripping_spec_witness :
    hasDelim brDelim "hello everyone".data = false
    ∧ splitBr "hello everyone".data = "hello everyone".data
    ∧ hasDelim brDelim "a<br>b<br>c".data = true
    ∧ (∃ rest, "a<br>b<br>c".data = splitBr "a<br>b<br>c".data ++ brDelim ++ rest
        ∧ hasDelim brDelim (splitBr "a<br>b<br>c".data) = false) :=
  ⟨by decide, (markup_stripping_spec "hello everyone".data).1 (by decide),
   by decide, (markup_stripping_spec "a<br>b<br>c".data).2.1 (by decide)⟩

/-- Claim C3: attaching problem data targets the most-recent utterance and
succeeds exactly when that utterance is a bot utterance (agent_idx = 1) that
does not already carry problem_data; in every other case the operation fails
with an assertion error and no dialog entry is rewritten. -/
theorem problem_data_attachment (dialog : List Utterance) (p : ProblemData) (u : Utterance)
    (h : dialog.getLast? = some u) :
    (u.agent_idx = 1 → u.problem_data = none →
        add_problem_data_to_utterance dialog p =
          Except.ok (dialog.dropLast ++ [{ u with problem_data := some p }]))
    ∧ (u.agent_idx ≠ 1 →
        add_problem_data_to_utterance dialog p =
          Except.error (Err.assertionError "Problem data must be attached to a bot utterance."))
    ∧ (u.agent_idx = 1 → u.problem_data ≠ none →
        add_problem_data_to_utterance dialog p =
          Except.error (Err.assertionError "Do not overwrite existing problem data!")) := by
  refine ⟨fun h1 h2 => ?_, fun h1 => ?_, fun h1 h2 => ?_⟩
  · simp [add_problem_data_to_utterance, h, h1, h2]
  · simp [add_problem_data_to_utterance, h, h1]
  · simp [add_problem_data_to_utterance, h, h1, h2]

/-- Witness for C3 at concrete inputs: attaching to a fresh bot utterance
succeeds, attaching to a human utterance fails with the assertion message,
and attaching twice fails with the overwrite assertion message. -/
theorem problem_data_attachment_witness :
    (add_problem_data_to_utterance [⟨1, "hi".data, "bot one", none, none⟩] 7 =
      Except.ok [⟨1, "hi".data, "bot one", some 7, none⟩])
    ∧ (add_problem_data_to_utterance [⟨0, "hi".data, "alice", none, none⟩] 7 =
      Except.error (Err.assertionError "Problem data must be attached to a bot utterance."))
    ∧ (add_problem_data_to_utterance [⟨1, "hi".data, "bot one", some 3, none⟩] 7 =
      Except.error (Err.assertionError "Do not overwrite existing problem data!")) := by
  refine ⟨?_, ?_, ?_⟩
  · exact (problem_data_attachment [⟨1, "hi".data, "bot one", none, none⟩] 7
      ⟨1, "hi".data, "bot one", none, none⟩ rfl).1 rfl rfl
  · exact (problem_data_attachment [⟨0, "hi".data, "alice", none, none⟩] 7
      ⟨0, "hi".data, "alice", none, none⟩ rfl).2.1 (by decide)
  · exact (problem_data_attachment [⟨1, "hi".data, "bot one", some 3, none⟩] 7
      ⟨1, "hi".data, "bot one", some 3, none⟩ rfl).2.2 rfl (by decide)

/-- Claim C2 (code bug): get_context consults only the module-level RNG
state, never the instance rng built from the seed, so it is not
deterministic under a supplied seed: every two instances agree for equal
global states regardless of their seeds, and one and the same seed-42
instance yields structurally different contexts at successive global
states. -/
theorem get_context_ignores_seed :
    (∀ (cg1 cg2 : ContextGenerator) (g : Nat), cg1.get_context g = cg2.get_context g)
    ∧ (ContextGenerator.mk (some 42)).get_context 0 ≠ (ContextGenerator.mk (some 42)).get_context 1 := by
  refine ⟨fun cg1 cg2 g => rfl, ?_⟩
  intro hcon
  have := congrArg (fun c => (c.personas.map Persona.name).head?) hcon
  simp only [ContextGenerator.get_context, get_settings, randomChoiceIdx] at this
  exact absurd this (by decide)

/-! Parley-level lemmas. -/

/-- When the conversation is already done and past the initial turn, parley
skips the exchange block, re-enters the termination block with act still
None, and raises TypeError there before touching any state or side
effect. -/
theorem parley_post_done (w : World) (ba ha ra : Act) (v : Option String)
    (hdone : w.chat_done = true) (hstarted : w.task_turn_idx ≠ 0) :
    parley w ba ha ra v = ⟨w, some Err.typeError, 0, 0⟩ := by
  simp [parley, finishDone, hdone, hstarted]

/-- Claim C1 (amended): once chat_done is true, a further parley invocation
leaves the entire world (DialogHistory and turn index included) unchanged
and performs no persistence write and no qualification grant, but it raises
a TypeError instead of returning normally as a no-op. -/
theorem post_done_parley_frame (w : World) (ba ha ra : Act) (v : Option String)
    (hdone : w.chat_done = true) (hstarted : w.task_turn_idx ≠ 0) :
    (parley w ba ha ra v).world = w
    ∧ (parley w ba ha ra v).writes = 0
    ∧ (parley w ba ha ra v).grants = 0
    ∧ (parley w ba ha ra v).err = some Err.typeError := by
  rw [parley_post_done w ba ha ra v hdone hstarted]
  exact ⟨rfl, rfl, rfl, rfl⟩

/-- Counterexample to claim C1 as stated: at a concrete completed
conversation, a further parley invocation is not a no-op; it raises an
exception (TypeError) rather than returning normally. -/
theorem post_done_parley_not_noop :
    wDone.chat_done = true
    ∧ (parley wDone botTurnAct humanTextAct ratingDoneAct none).err ≠ none := by
  exact ⟨by decide, by decide⟩

/-- Witness for the amended claim C1 at a concrete completed
conversation. -/
theorem post_done_parley_frame_witness :
    (parley wDone botTurnAct humanTextAct ratingDoneAct none).world = wDone
    ∧ (parley wDone botTurnAct humanTextAct ratingDoneAct none).writes = 0
    ∧ (parley wDone botTurnAct humanTextAct ratingDoneAct none).grants = 0
    ∧ (parley wDone botTurnAct humanTextAct ratingDoneAct none).err = some Err.typeError :=
  post_done_parley_frame wDone botTurnAct humanTextAct ratingDoneAct none (by decide) (by decide)

/-- Projections of run_initial_turn: the initial turn never changes the turn
index, the done flag or the dialog. -/
theorem run_initial_turn_fields (w : World) :
    (run_initial_turn w).1.task_turn_idx = w.task_turn_idx
    ∧ (run_initial_turn w).1.chat_done = w.chat_done
    ∧ (run_initial_turn w).1.dialog = w.dialog := by
  unfold run_initial_turn
  dsimp only
  split
  · split
    · exact ⟨rfl, rfl, rfl⟩
    · split <;> exact ⟨rfl, rfl, rfl⟩
  · exact ⟨rfl, rfl, rfl⟩

/-- Projections of finishDone: it can only backfill the last dialog entry;
turn index and done flag are untouched, there is at most one persistence
write, and the grant count is the write count scaled by the violations
test. -/
theorem finishDone_fields (w : World) (act : Option Act) (v : Option String) :
    (finishDone w act v).world.task_turn_idx = w.task_turn_idx
    ∧ (finishDone w act v).world.chat_done = w.chat_done
    ∧ (finishDone w act v).writes ≤ 1
    ∧ (finishDone w act v).grants
        = (finishDone w act v).writes * (if nonEmptyViolations v = true then 1 else 0) := by
  unfold finishDone
  split
  · exact ⟨rfl, rfl, by simp, by simp⟩
  · split
    · exact ⟨rfl, rfl, by simp, by simp⟩
    · split
      · exact ⟨rfl, rfl, by simp, by simp⟩
      · exact ⟨rfl, rfl, by simp, by simp⟩

/-- Projections of finishTurn: the turn index advances by exactly one and
the done flag is preserved; effects obey the finishDone accounting. -/
theorem finishTurn_fields (w : World) (a : Act) (v : Option String) :
    (finishTurn w a v).world.task_turn_idx = w.task_turn_idx + 1
    ∧ (finishTurn w a v).world.chat_done = w.chat_done
    ∧ (finishTurn w a v).writes ≤ 1
    ∧ (finishTurn w a v).grants
        = (finishTurn w a v).writes * (if nonEmptyViolations v = true then 1 else 0) := by
  unfold finishTurn
  dsimp only
  split
  · exact finishDone_fields { w with task_turn_idx := w.task_turn_idx + 1 } (some a) v
  · exact ⟨rfl, rfl, by simp, by simp⟩

/-- Master case analysis of one parley invocation: the turn index either
advances by exactly one, or stays put with an exception raised and no
persistence write; there is at most one persistence write; and the grant
count is the write count scaled by the violations test. -/
theorem parley_cases (w : World) (ba ha ra : Act) (v : Option String) :
    ((parley w ba ha ra v).world.task_turn_idx = w.task_turn_idx + 1
      ∨ ((parley w ba ha ra v).world.task_turn_idx = w.task_turn_idx
          ∧ (parley w ba ha ra v).err ≠ none
          ∧ (parley w ba ha ra v).writes = 0))
    ∧ (parley w ba ha ra v).writes ≤ 1
    ∧ (parley w ba ha ra v).grants
        = (parley w ba ha ra v).writes * (if nonEmptyViolations v = true then 1 else 0) := by
  unfold parley
  dsimp only
  by_cases h0 : w.task_turn_idx = 0
  · rw [if_pos h0]
    rcases hri : run_initial_turn w with ⟨w1, e⟩
    have hf := run_initial_turn_fields w
    rw [hri] at hf
    dsimp only at hf
    cases e with
    | none =>
      dsimp only
      refine ⟨Or.inl ?_, by simp, by simp⟩
      rw [hf.1]
    | some err =>
      dsimp only
      exact ⟨Or.inr ⟨hf.1, by simp, rfl⟩, by simp, by simp⟩
  · rw [if_neg h0]
    by_cases hd : w.chat_done = true
    · rw [if_pos hd]
      exact ⟨Or.inr ⟨rfl, by simp [finishDone], rfl⟩, by simp [finishDone], by simp [finishDone]⟩
    · rw [if_neg hd]
      by_cases hb : ba.human_turn = true
      · rw [if_pos hb]
        rcases hh : w.context_info.personas.head? with _ | p0
        · exact ⟨Or.inr ⟨rfl, by simp, rfl⟩, by simp, by simp⟩
        · dsimp only
          refine ⟨Or.inl ?_, (finishTurn_fields _ _ _).2.2.1, (finishTurn_fields _ _ _).2.2.2⟩
          rw [(finishTurn_fields _ _ _).1]
      · rw [if_neg hb]
        rcases hr : ra.task_data with _ | td
        · exact ⟨Or.inr ⟨rfl, by simp, rfl⟩, by simp, by simp⟩
        · dsimp only
          rcases hpd : td.problem_data_for_prior_message with _ | p
          · dsimp only
            refine ⟨Or.inl ?_, (finishTurn_fields _ _ _).2.2.1, (finishTurn_fields _ _ _).2.2.2⟩
            rw [(finishTurn_fields _ _ _).1]
          · dsimp only
            rcases hap : add_problem_data_to_utterance _ p with e | d
            · exact ⟨Or.inr ⟨rfl, by simp, rfl⟩, by simp, by simp⟩
            · dsimp only
              refine ⟨Or.inl ?_, (finishTurn_fields _ _ _).2.2.1, (finishTurn_fields _ _ _).2.2.2⟩
              rw [(finishTurn_fields _ _ _).1]

/-- Claim C4 (amended): across every parley invocation the turn index is
non-decreasing; every invocation that completes without raising an exception
increases it by exactly 1; an invocation entered after the conversation is
done leaves it unchanged. -/
theorem parley_turn_monotone (w : World) (ba ha ra : Act) (v : Option String) :
    w.task_turn_idx ≤ (parley w ba ha ra v).world.task_turn_idx
    ∧ ((parley w ba ha ra v).err = none →
        (parley w ba ha ra v).world.task_turn_idx = w.task_turn_idx + 1)
    ∧ (w.chat_done = true → w.task_turn_idx ≠ 0 →
        (parley w ba ha ra v).world.task_turn_idx = w.task_turn_idx) := by
  refine ⟨?_, ?_, ?_⟩
  · rcases (parley_cases w ba ha ra v).1 with h | h
    · rw [h]; exact Nat.le_succ _
    · rw [h.1]
  · intro he
    rcases (parley_cases w ba ha ra v).1 with h | h
    · exact h
    · exact absurd he h.2.1
  · intro hdone hstarted
    rw [parley_post_done w ba ha ra v hdone hstarted]

/-- Counterexample to claim C4 as stated: at a concrete completed (hence
started) conversation, a further parley invocation leaves the turn index
unchanged instead of increasing it by exactly 1. -/
theorem post_done_turn_not_incremented :
    1 ≤ wDone.task_turn_idx
    ∧ (parley wDone botTurnAct humanTextAct ratingDoneAct none).world.task_turn_idx
        = wDone.task_turn_idx := by
  exact ⟨by decide, by decide⟩

/-- Witness for the amended claim C4: a clean exchange increments the turn
index by exactly one, and a post-done invocation leaves it unchanged. -/
theorem parley_turn_monotone_witness :
    (parley wAfterInitial botTurnAct humanTextAct ratingDoneAct none).world.task_turn_idx
        = wAfterInitial.task_turn_idx + 1
    ∧ (parley wDone botTurnAct humanTextAct ratingDoneAct none).world.task_turn_idx
        = wDone.task_turn_idx :=
  ⟨(parley_turn_monotone wAfterInitial botTurnAct humanTextAct ratingDoneAct none).2.1 (by decide),
   (parley_turn_monotone wDone botTurnAct humanTextAct ratingDoneAct none).2.2 (by decide) (by decide)⟩

/-- Claim C6: in an invocation that completes the conversation (exactly one
persistence write), the punitive qualification fires exactly once when the
acceptability-violations value is a non-empty string, and not at all when it
is the empty string or None; an invocation without the terminal write never
grants it. -/
theorem qualification_grant_spec (w : World) (ba ha ra : Act) (v : Option String) :
    ((parley w ba ha ra v).writes = 1 →
        (∀ s, v = some s → s ≠ "" → (parley w ba ha ra v).grants = 1)
        ∧ (v = some "" → (parley w ba ha ra v).grants = 0)
        ∧ (v = none → (parley w ba ha ra v).grants = 0))
    ∧ ((parley w ba ha ra v).writes = 0 → (parley w ba ha ra v).grants = 0) := by
  have h := (parley_cases w ba ha ra v).2.2
  refine ⟨fun hw => ⟨fun s hs hne => ?_, fun hs => ?_, fun hs => ?_⟩, fun hw => ?_⟩
  · rw [h, hw, hs]; simp [nonEmptyViolations, hne]
  · rw [h, hw, hs]; simp [nonEmptyViolations]
  · rw [h, hw, hs]; simp [nonEmptyViolations]
  · rw [h, hw]; simp

/-- Witness for C6 at a concrete terminating conversation: violations value
"rude" yields exactly one grant; the empty violations value yields none. -/
theorem qualification_grant_spec_witness :
    (parley wAfterInitial botTurnAct humanTextAct ratingDoneAct (some "rude")).writes = 1
    ∧ (parley wAfterInitial botTurnAct humanTextAct ratingDoneAct (some "rude")).grants = 1
    ∧ (parley wAfterInitial botTurnAct humanTextAct ratingDoneAct (some "")).writes = 1
    ∧ (parley wAfterInitial botTurnAct humanTextAct ratingDoneAct (some "")).grants = 0 :=
  ⟨by decide,
   ((qualification_grant_spec wAfterInitial botTurnAct humanTextAct ratingDoneAct
      (some "rude")).1 (by decide)).1 "rude" rfl (by decide),
   by decide,
   ((qualification_grant_spec wAfterInitial botTurnAct humanTextAct ratingDoneAct
      (some "")).1 (by decide)).2.1 rfl⟩

/-- Claim C5: on a bot turn (human_turn false) whose rating action carries a
non-null final rating, the single invocation appends exactly one bot
utterance, marks the conversation done, writes the final rating onto the
last dialog entry, completes without an exception, and performs exactly one
persistence write. -/
theorem bot_turn_completion (w : World) (ba ha ra : Act) (v : Option String)
    (td : TaskData) (score : Rating)
    (h0 : w.chat_done = false) (h1 : w.task_turn_idx ≠ 0)
    (h2 : ba.human_turn = false)
    (h3 : ra.task_data = some td) (h4 : td.final_rating = some score) :
    (parley w ba ha ra v).world.chat_done = true
    ∧ (parley w ba ha ra v).err = none
    ∧ (parley w ba ha ra v).world.dialog.length = w.dialog.length + 1
    ∧ ((parley w ba ha ra v).world.dialog.getLast?).map Utterance.agent_idx = some 1
    ∧ ((parley w ba ha ra v).world.dialog.getLast?).bind Utterance.final_rating = some score
    ∧ (parley w ba ha ra v).writes = 1 := by
  have hb2 : ¬ ba.human_turn = true := by simp [h2]
  unfold parley
  rw [if_neg h1, if_neg (by simp [h0]), if_neg hb2]
  dsimp only
  rw [h3]
  dsimp only
  rcases hpd : td.problem_data_for_prior_message with _ | p
  · simp [finishTurn, finishDone, has_final_rating, h3, h4,
      List.getLast?_concat, List.dropLast_concat]
  · simp [add_problem_data_to_utterance, finishTurn, finishDone, has_final_rating, h3, h4,
      List.getLast?_concat, List.dropLast_concat]

/-- Witness for C5 at a concrete conversation: the exchange with a rating
action carrying score 4 appends one bot utterance carrying that final
rating and writes once. -/
theorem bot_turn_completion_witness :
    (parley wAfterInitial botTurnAct humanTextAct ratingDoneAct none).world.chat_done = true
    ∧ (parley wAfterInitial botTurnAct humanTextAct ratingDoneAct none).err = none
    ∧ (parley wAfterInitial botTurnAct humanTextAct ratingDoneAct none).world.dialog.length
        = wAfterInitial.dialog.length + 1
    ∧ ((parley wAfterInitial botTurnAct humanTextAct ratingDoneAct none).world.dialog.getLast?).map
        Utterance.agent_idx = some 1
    ∧ ((parley wAfterInitial botTurnAct humanTextAct ratingDoneAct none).world.dialog.getLast?).bind
        Utterance.final_rating = some 4
    ∧ (parley wAfterInitial botTurnAct humanTextAct ratingDoneAct none).writes = 1 :=
  bot_turn_completion wAfterInitial botTurnAct humanTextAct ratingDoneAct none
    { final_rating := some 4, problem_data_for_prior_message := none } 4
    (by decide) (by decide) (by decide) (by decide) (by decide)

/-- Claim C9: with persona sharing on, at the initial turn the human's
persona observation reads the context's location unconditionally: a context
lacking a location makes the initial turn raise KeyError after the bot's
delivery and before any delivery to the human, leaving the turn index at 0,
whereas the bot's persona message includes the location exactly when
present, and a present location lets the initial turn complete and deliver
to both. -/
theorem initial_location_lookup (w : World) (ba ha ra : Act) (v : Option String)
    (hp : w.include_persona = true) (ht : w.task_turn_idx = 0)
    (hlen : 2 ≤ w.context_info.personas.length) :
    (w.context_info.location = none →
        (parley w ba ha ra v).err = some Err.keyError
        ∧ (parley w ba ha ra v).world.bot.observed
            = w.bot.observed ++ [Obs.personaToBot w.context_info.personas none]
        ∧ (parley w ba ha ra v).world.agent.observed = w.agent.observed
        ∧ (parley w ba ha ra v).world.task_turn_idx = 0)
    ∧ (∀ loc, w.context_info.location = some loc →
        (parley w ba ha ra v).err = none
        ∧ (parley w ba ha ra v).world.bot.observed
            = w.bot.observed ++ [Obs.personaToBot w.context_info.personas (some loc)]
        ∧ (parley w ba ha ra v).world.agent.observed
            = w.agent.observed ++ [Obs.personaToHuman w.context_info.personas loc]) := by
  have hnl : ¬ w.context_info.personas.length < 2 := Nat.not_lt.mpr hlen
  refine ⟨fun hloc => ?_, fun loc hloc => ?_⟩ <;>
    simp [parley, run_initial_turn, Proxy.observe, hp, ht, hloc, hnl]

/-- Witness for C9: a concrete location-less context fails the initial turn
with KeyError while the same context with a location completes it. -/
theorem initial_location_lookup_witness :
    (parley (initWorld { sampleCtx with location := none } true proxy0 proxy0)
        botTurnAct humanTextAct ratingDoneAct none).err = some Err.keyError
    ∧ (parley wStart botTurnAct humanTextAct ratingDoneAct none).err = none :=
  ⟨((initial_location_lookup (initWorld { sampleCtx with location := none } true proxy0 proxy0)
        botTurnAct humanTextAct ratingDoneAct none (by decide) (by decide) (by decide)).1
      (by decide)).1,
   ((initial_location_lookup wStart botTurnAct humanTextAct ratingDoneAct none
        (by decide) (by decide) (by decide)).2
      { name := "hut", description := "a small hut" } (by decide)).1⟩

/-- Claim C7 (amended): with persona sharing enabled and a context of three
personas plus a location, the first parley leaves the turn index at 1 and
the dialog empty and delivers exactly one scene-setting observation to each
participant; the bot's delivery is explicitly non-turn-counting
(increment_turn false), but the human's delivery carries no such mark, so
under the ParticipantProxy contract's default the human proxy's own turn
counter is incremented. -/
theorem initial_turn_sharing (ctx : ContextInfo) (a b : Proxy) (ba ha ra : Act)
    (v : Option String) (loc : Location)
    (hlen : ctx.personas.length = 3) (hloc : ctx.location = some loc) :
    (parley (initWorld ctx true a b) ba ha ra v).world.task_turn_idx = 1
    ∧ (parley (initWorld ctx true a b) ba ha ra v).world.dialog = []
    ∧ (parley (initWorld ctx true a b) ba ha ra v).err = none
    ∧ (parley (initWorld ctx true a b) ba ha ra v).world.bot.observed
        = b.observed ++ [Obs.personaToBot ctx.personas (some loc)]
    ∧ (parley (initWorld ctx true a b) ba ha ra v).world.agent.observed
        = a.observed ++ [Obs.personaToHuman ctx.personas loc]
    ∧ (parley (initWorld ctx true a b) ba ha ra v).world.bot.turn_count = b.turn_count
    ∧ (parley (initWorld ctx true a b) ba ha ra v).world.agent.turn_count = a.turn_count + 1 := by
  have hnl : ¬ ctx.personas.length < 2 := by rw [hlen]; decide
  simp [parley, run_initial_turn, initWorld, Proxy.observe, hloc, hnl]

/-- Counterexample to claim C7 as stated: at a concrete first invocation
with persona sharing on, the human proxy's own turn counter goes from 0 to
1, so it is not true that neither participant's counter is incremented by
the scene-setting delivery. -/
theorem initial_turn_increments_human_counter :
    proxy0.turn_count = 0
    ∧ (parley wStart botTurnAct humanTextAct ratingDoneAct none).world.agent.turn_count = 1 := by
  exact ⟨rfl, by decide⟩

/-- Witness for the amended claim C7 at the concrete sample context. -/
theorem initial_turn_sharing_witness :
    (parley (initWorld sampleCtx true proxy0 proxy0)
        botTurnAct humanTextAct ratingDoneAct none).world.task_turn_idx = 1
    ∧ (parley (initWorld sampleCtx true proxy0 proxy0)
        botTurnAct humanTextAct ratingDoneAct none).world.dialog = []
    ∧ (parley (initWorld sampleCtx true proxy0 proxy0)
        botTurnAct humanTextAct ratingDoneAct none).world.bot.turn_count = proxy0.turn_count
    ∧ (parley (initWorld sampleCtx true proxy0 proxy0)
        botTurnAct humanTextAct ratingDoneAct none).world.agent.turn_count
        = proxy0.turn_count + 1 := by
  have h := initial_turn_sharing sampleCtx proxy0 proxy0 botTurnAct humanTextAct ratingDoneAct
    none { name := "hut", description := "a small hut" } (by decide) (by decide)
  exact ⟨h.1, h.2.1, h.2.2.2.2.2.1, h.2.2.2.2.2.2⟩

/-- Claim C10: on a bot turn, when the rating-phase action lacks a task_data
field, parley raises KeyError at act['task_data'] before the final-rating
check runs: the conversation is not marked done, no persistence write
occurs, and the turn index is not advanced. -/
theorem rating_without_task_data (w : World) (ba ha ra : Act) (v : Option String)
    (h0 : w.chat_done = false) (h1 : w.task_turn_idx ≠ 0)
    (h2 : ba.human_turn = false) (h3 : ra.task_data = none) :
    (parley w ba ha ra v).err = some Err.keyError
    ∧ (parley w ba ha ra v).world.chat_done = false
    ∧ (parley w ba ha ra v).writes = 0
    ∧ (parley w ba ha ra v).world.task_turn_idx = w.task_turn_idx := by
  simp [parley, h0, h1, h2, h3]

/-- Witness for C10 at a concrete conversation: a rating action without
task_data raises KeyError and the conversation is not marked done. -/
theorem rating_without_task_data_witness :
    (parley wAfterInitial botTurnAct humanTextAct humanTextAct none).err = some Err.keyError
    ∧ (parley wAfterInitial botTurnAct humanTextAct humanTextAct none).world.chat_done = false :=
  ⟨(rating_without_task_data wAfterInitial botTurnAct humanTextAct humanTextAct none
      (by decide) (by decide) (by decide) (by decide)).1,
   (rating_without_task_data wAfterInitial botTurnAct humanTextAct humanTextAct none
      (by decide) (by decide) (by decide) (by decide)).2.1⟩

end Multiparty
